import Mathlib

/-!
Shallow embedding of `src/index.ts` of glowwVideo/ticket-check-action.

The action's `run` function checks a pull request for a ticket reference in
the title, then (unless the author is exempt) in the branch name and the
body, rewriting the title from a configurable template when a reference is
found outside the title.  External collaborators (the configuration
provider `getInput`, the JS regular-expression engine, and the API client)
are modelled by their contracts: `getInput` returns the configured string
and throws when a required option is absent, the regex engine is an oracle
`Engine` mapping a pattern and flag string either to a compile error or to
a match function returning the first match's text, and the API client is
modelled by recording the issued requests.
-/

/-- First index at which `pat` occurs in `s` (JS `String.prototype.indexOf`
semantics: the empty pattern occurs at index 0). -/
def firstIndexOf : List Char → List Char → Option Nat
  | [], pat => if pat.isPrefixOf ([] : List Char) then some 0 else none
  | c :: rest, pat =>
    if pat.isPrefixOf (c :: rest) then some 0
    else (firstIndexOf rest pat).map (fun i => i + 1)

/-- JS `GetSubstitution` for a string search value: expand the dollar
escape sequences in the replacement text.  `matched` is the matched
substring, `before` the part of the subject preceding the match and
`after` the part following it.  `Char.ofNat 96` is the backquote and
`Char.ofNat 39` the apostrophe. -/
def getSubstitution (matched before after : List Char) : List Char → List Char
  | [] => []
  | '$' :: c :: rest =>
    if c == '$' then '$' :: getSubstitution matched before after rest
    else if c == '&' then matched ++ getSubstitution matched before after rest
    else if c == Char.ofNat 96 then before ++ getSubstitution matched before after rest
    else if c == Char.ofNat 39 then after ++ getSubstitution matched before after rest
    else '$' :: c :: getSubstitution matched before after rest
  | c :: rest => c :: getSubstitution matched before after rest

/-- JS `String.prototype.replace` with a string search value: replace the
first occurrence of `pat` in `s` by `rep` (with dollar escapes expanded),
or return `s` unchanged when `pat` does not occur. -/
def jsReplace (s pat rep : String) : String :=
  match firstIndexOf s.data pat.data with
  | none => s
  | some i =>
    String.mk (s.data.take i
      ++ getSubstitution pat.data (s.data.take i) (s.data.drop (i + pat.data.length)) rep.data
      ++ s.data.drop (i + pat.data.length))

/-- JS whitespace and line-terminator code points recognised by
`String.prototype.trim`. -/
def jsIsWhitespace (c : Char) : Bool :=
  c == ' ' || c == Char.ofNat 9 || c == Char.ofNat 10 || c == Char.ofNat 11 ||
  c == Char.ofNat 12 || c == Char.ofNat 13 || c == Char.ofNat 160 ||
  c == Char.ofNat 8232 || c == Char.ofNat 8233 || c == Char.ofNat 65279

/-- JS `String.prototype.trim`: drop whitespace from both ends. -/
def jsTrim (s : String) : String :=
  String.mk (((s.data.dropWhile jsIsWhitespace).reverse.dropWhile jsIsWhitespace).reverse)

/-- JS `String.prototype.split` with a single-character separator:
`"".split(sep)` is `[""]`. -/
def splitOnChar (sep : Char) : List Char → List (List Char)
  | [] => [[]]
  | c :: rest =>
    if c == sep then [] :: splitOnChar sep rest
    else
      match splitOnChar sep rest with
      | [] => [[c]]
      | g :: gs => (c :: g) :: gs

/-- The regular-expression engine, modelled as an oracle: compiling a
pattern string with a flag string either fails (`new RegExp` throws a
`SyntaxError` whose message is the `String` payload) or yields the match
function `String → Option String` returning the first match's full text
(`result[0]` of `exec`/`match`), or `none` when the input does not match. -/
structure Engine where
  compile : String → String → Except String (String → Option String)

/-- The configuration surface of the action: one string per declared input,
with `""` standing for an input that was not supplied (the configuration
provider returns the empty string for absent inputs). -/
structure Inputs where
  ticketRegex : String
  ticketPrefix : String
  titleFormat : String
  titleRegex : String
  titleRegexFlags : String
  branchRegex : String
  branchRegexFlags : String
  bodyRegex : String
  bodyRegexFlags : String
  exemptUsers : String
  quiet : String
  token : String

/-- The pull-request context consumed by `run`: payload fields plus the
issue coordinates used for the API calls. -/
structure Context where
  title : String
  branch : String
  login : String
  userType : String
  body : Option String
  owner : String
  repo : String
  number : Nat

/-- Which stage produced the rewritten title. -/
inductive Source
  | branch
  | body
  deriving DecidableEq, Repr

/-- Resolution outcome of one invocation. -/
inductive Outcome
  | approved
  | exempted
  | titleUpdated (src : Source)
  | rejected
  deriving DecidableEq, Repr

/-- An outbound request to the API client (`client.pulls.update` or
`client.pulls.createReview`). -/
inductive Request
  | update (owner repo : String) (number : Nat) (title : String)
  | review (owner repo : String) (number : Nat) (body : String) (event : String)
  deriving DecidableEq, Repr

/-- Observable result of one invocation of `run`: the outcome (none only on
the unreachable fall-through where the final guard is false), the message
passed to `setFailed` if any, and the API requests issued in order. -/
structure RunResult where
  outcome : Option Outcome
  failed : Option String
  requests : List Request
  deriving DecidableEq, Repr

/-- The configuration provider `getInput(name, { required })`: returns the
configured value, throwing `Input required and not supplied: name` when the
option is required but absent (absent inputs are the empty string). -/
def getInputE (value name : String) (required : Bool) : Except String String :=
  if required && (value == "") then
    Except.error ("Input required and not supplied: " ++ name)
  else Except.ok value

/-- `extractId` of the source: run the configured `ticketRegex` (compiled
with no flags, as `String.prototype.match` does for a string argument) over
`value` and return the first match's text, or `none`. -/
def extractId (eng : Engine) (inp : Inputs) (value : String) : Except String (Option String) := do
  let pat ← getInputE inp.ticketRegex "ticketRegex" true
  let re ← eng.compile pat ""
  pure (re value)

/-- The sender computation of the source: a Bot author's login has the
first occurrence of the literal text `[bot]` removed by
`login.replace('[bot]', '')`; any other author's login is used unchanged. -/
def computeSender (senderType login : String) : String :=
  if senderType == "Bot" then jsReplace login "[bot]" "" else login

/-- The title built by the source before requesting the update:
`titleFormat.replace('%prefix%', ticketPrefix).replace('%id%', id).replace('%title%', title)`. -/
def buildTitle (titleFormat ticketPrefix id title : String) : String :=
  jsReplace (jsReplace (jsReplace titleFormat "%prefix%" ticketPrefix) "%id%" id) "%title%" title

/-- Comment posted after a title update derived from the branch name. -/
def branchUpdateComment : String :=
  "Hey! I noticed that your PR contained a reference to the ticket in the branch name but not in the title. I went ahead and updated that for you. Hope you don't mind! ☺️"

/-- Comment posted after a title update derived from the body. -/
def bodyUpdateComment : String :=
  "Hey! I noticed that your PR contained a reference to the ticket in the body but not in the title. I went ahead and updated that for you. Hope you don't mind! ☺️"

/-- The `try` block of `run`, line by line.  Thrown JS exceptions are the
`Except.error` branch.  Every throwing operation (a required `getInput` and
`new RegExp`) precedes the first API call on every path, so an error always
leaves zero issued requests; the requests of the successful paths are
recorded in the returned `RunResult`. -/
def tryRun (eng : Engine) (inp : Inputs) (ctx : Context) : Except String RunResult := do
  let title := ctx.title
  let titleRegexBase ← getInputE inp.titleRegex "titleRegex" true
  let titleRegexFlags ← getInputE inp.titleRegexFlags "titleRegexFlags" true
  let titleRegex ← eng.compile titleRegexBase titleRegexFlags
  let titleCheck := titleRegex title
  let token ← getInputE inp.token "token" true
  -- getOctokit(token): client construction has no observable effect here
  let _client := token
  let owner := ctx.owner
  let repo := ctx.repo
  let number := ctx.number
  let login := ctx.login
  let senderType := ctx.userType
  let sender := computeSender senderType login
  if titleCheck.isSome then
    return ⟨some Outcome.approved, none, []⟩
  let quietStr ← getInputE inp.quiet "quiet" false
  let quiet := quietStr == "true"
  let exemptRaw ← getInputE inp.exemptUsers "exemptUsers" false
  let exemptUsers := (splitOnChar ',' exemptRaw.data).map (fun u => jsTrim (String.mk u))
  if (sender != "") && exemptUsers.contains sender then
    return ⟨some Outcome.exempted, none, []⟩
  let ticketPrefix ← getInputE inp.ticketPrefix "ticketPrefix" false
  let titleFormat ← getInputE inp.titleFormat "titleFormat" true
  let branch := ctx.branch
  let branchRegexBase ← getInputE inp.branchRegex "branchRegex" true
  let branchRegexFlags ← getInputE inp.branchRegexFlags "branchRegexFlags" true
  let branchRegex ← eng.compile branchRegexBase branchRegexFlags
  let branchCheck := branchRegex branch
  if branchCheck.isSome then
    let idOpt ← extractId eng inp branch
    match idOpt with
    | none =>
      return ⟨some Outcome.rejected, some "Could not extract a ticket ID reference from the branch", []⟩
    | some id =>
      let updateReq := Request.update owner repo number (buildTitle titleFormat ticketPrefix id title)
      let reqs := if !quiet then
        [updateReq, Request.review owner repo number branchUpdateComment "COMMENT"]
      else [updateReq]
      return ⟨some (Outcome.titleUpdated Source.branch), none, reqs⟩
  match ctx.body with
  | none =>
    return ⟨some Outcome.rejected, some "Could not retrieve the Pull Request body", []⟩
  | some body =>
    let bodyRegexBase ← getInputE inp.bodyRegex "bodyRegex" true
    let bodyRegexFlags ← getInputE inp.bodyRegexFlags "bodyRegexFlags" true
    let bodyRegex ← eng.compile bodyRegexBase bodyRegexFlags
    let bodyCheck := bodyRegex body
    match bodyCheck with
    | some matched =>
      let idOpt ← extractId eng inp matched
      match idOpt with
      | none =>
        return ⟨some Outcome.rejected, some "Could not extract a ticket shorthand reference from the body", []⟩
      | some id =>
        let updateReq := Request.update owner repo number (buildTitle titleFormat ticketPrefix id title)
        let reqs := if !quiet then
          [updateReq, Request.review owner repo number bodyUpdateComment "COMMENT"]
        else [updateReq]
        return ⟨some (Outcome.titleUpdated Source.body), none, reqs⟩
    | none =>
      if titleCheck == none && branchCheck == none && bodyCheck == none then
        return ⟨some Outcome.rejected, some "No ticket was referenced in this pull request", []⟩
      return ⟨none, none, []⟩

/-- `run`: the `try` block together with the top-level `catch`, which turns
a thrown exception into a single `setFailed(error.message)` call. -/
def run (eng : Engine) (inp : Inputs) (ctx : Context) : RunResult :=
  match tryRun eng inp ctx with
  | Except.ok r => r
  | Except.error msg => ⟨some Outcome.rejected, some msg, []⟩

/-! ## Reduction lemmas for the collaborator models -/

/-- A supplied input passes `getInput` through unchanged. -/
theorem getInputE_ok {v : String} (h : v ≠ "") (n : String) (r : Bool) :
    getInputE v n r = Except.ok v := by
  simp [getInputE, h]

/-- A non-required input passes `getInput` through even when absent. -/
theorem getInputE_opt (v n : String) : getInputE v n false = Except.ok v := rfl

/-- A required absent input makes `getInput` throw. -/
theorem getInputE_missing (n : String) :
    getInputE "" n true = Except.error ("Input required and not supplied: " ++ n) := rfl

theorem okBind {α β : Type} (a : α) (f : α → Except String β) :
    (Except.ok a >>= f : Except String β) = f a := rfl

theorem errBind {α β : Type} (e : String) (f : α → Except String β) :
    ((Except.error e : Except String α) >>= f : Except String β) = Except.error e := rfl

theorem pureOk {α : Type} (a : α) : (pure a : Except String α) = Except.ok a := rfl

/-- The exemption guard is false when the sender is empty or not listed. -/
theorem exemptCond_false (ty lg raw : String)
    (h : computeSender ty lg = "" ∨
      computeSender ty lg ∉ (splitOnChar ',' raw.data).map (fun u => jsTrim (String.mk u))) :
    ((computeSender ty lg != "") &&
      ((splitOnChar ',' raw.data).map (fun u => jsTrim (String.mk u))).contains
        (computeSender ty lg)) = false := by
  rcases h with h | h <;> simp [h]

/-! ## Path lemmas: the value of `tryRun` on each terminal path -/

/-- A title match returns Approved at once, with no request issued. -/
theorem tryRun_title_match (eng : Engine) (inp : Inputs) (ctx : Context)
    (f : String → Option String) (m : String)
    (htr : inp.titleRegex ≠ "") (htf : inp.titleRegexFlags ≠ "")
    (hc : eng.compile inp.titleRegex inp.titleRegexFlags = Except.ok f)
    (hm : f ctx.title = some m)
    (htok : inp.token ≠ "") :
    tryRun eng inp ctx = Except.ok ⟨some Outcome.approved, none, []⟩ := by
  simp only [tryRun, getInputE_ok htr, getInputE_ok htf, getInputE_ok htok, hc, okBind, pureOk,
    hm, Option.isSome_some, eq_self_iff_true, if_true]

/-- An exempt sender returns Exempted, with no request issued. -/
theorem tryRun_exempted (eng : Engine) (inp : Inputs) (ctx : Context)
    (f : String → Option String)
    (htr : inp.titleRegex ≠ "") (htf : inp.titleRegexFlags ≠ "")
    (hc : eng.compile inp.titleRegex inp.titleRegexFlags = Except.ok f)
    (hm : f ctx.title = none)
    (htok : inp.token ≠ "")
    (hs : computeSender ctx.userType ctx.login ≠ "")
    (hmem : computeSender ctx.userType ctx.login ∈
      (splitOnChar ',' inp.exemptUsers.data).map (fun u => jsTrim (String.mk u))) :
    tryRun eng inp ctx = Except.ok ⟨some Outcome.exempted, none, []⟩ := by
  have hcond : ((computeSender ctx.userType ctx.login != "") &&
      ((splitOnChar ',' inp.exemptUsers.data).map (fun u => jsTrim (String.mk u))).contains
        (computeSender ctx.userType ctx.login)) = true := by
    rw [Bool.and_eq_true]
    exact ⟨by simpa using hs, by simpa using hmem⟩
  simp only [tryRun, getInputE_ok htr, getInputE_ok htf, getInputE_ok htok, getInputE_opt,
    hc, okBind, pureOk, hm, Option.isSome_none, Bool.false_eq_true, if_false, hcond, if_true]

/-- A branch match whose ticket extraction fails is fatal with the branch
message; no request is issued and the body stage is never evaluated. -/
theorem tryRun_branch_extract_fail (eng : Engine) (inp : Inputs) (ctx : Context)
    (f g t : String → Option String) (m : String)
    (htr : inp.titleRegex ≠ "") (htf : inp.titleRegexFlags ≠ "")
    (hc : eng.compile inp.titleRegex inp.titleRegexFlags = Except.ok f)
    (hm : f ctx.title = none)
    (htok : inp.token ≠ "")
    (hne : computeSender ctx.userType ctx.login = "" ∨
      computeSender ctx.userType ctx.login ∉
        (splitOnChar ',' inp.exemptUsers.data).map (fun u => jsTrim (String.mk u)))
    (htfmt : inp.titleFormat ≠ "")
    (hbr : inp.branchRegex ≠ "") (hbf : inp.branchRegexFlags ≠ "")
    (hgc : eng.compile inp.branchRegex inp.branchRegexFlags = Except.ok g)
    (hgb : g ctx.branch = some m)
    (htk : inp.ticketRegex ≠ "")
    (htc : eng.compile inp.ticketRegex "" = Except.ok t)
    (htb : t ctx.branch = none) :
    tryRun eng inp ctx = Except.ok ⟨some Outcome.rejected,
      some "Could not extract a ticket ID reference from the branch", []⟩ := by
  simp only [tryRun, extractId, getInputE_ok htr, getInputE_ok htf, getInputE_ok htok,
    getInputE_ok htfmt, getInputE_ok hbr, getInputE_ok hbf, getInputE_ok htk, getInputE_opt,
    hc, hgc, htc, okBind, pureOk, hm, hgb, htb, Option.isSome_none, Option.isSome_some,
    Bool.false_eq_true, if_false, eq_self_iff_true, if_true, exemptCond_false _ _ _ hne]

/-- A branch match with a successful extraction updates the title and, when
quiet mode is off, posts the branch-variant comment after the update. -/
theorem tryRun_branch_update (eng : Engine) (inp : Inputs) (ctx : Context)
    (f g t : String → Option String) (m i : String)
    (htr : inp.titleRegex ≠ "") (htf : inp.titleRegexFlags ≠ "")
    (hc : eng.compile inp.titleRegex inp.titleRegexFlags = Except.ok f)
    (hm : f ctx.title = none)
    (htok : inp.token ≠ "")
    (hne : computeSender ctx.userType ctx.login = "" ∨
      computeSender ctx.userType ctx.login ∉
        (splitOnChar ',' inp.exemptUsers.data).map (fun u => jsTrim (String.mk u)))
    (htfmt : inp.titleFormat ≠ "")
    (hbr : inp.branchRegex ≠ "") (hbf : inp.branchRegexFlags ≠ "")
    (hgc : eng.compile inp.branchRegex inp.branchRegexFlags = Except.ok g)
    (hgb : g ctx.branch = some m)
    (htk : inp.ticketRegex ≠ "")
    (htc : eng.compile inp.ticketRegex "" = Except.ok t)
    (htb : t ctx.branch = some i) :
    tryRun eng inp ctx = Except.ok ⟨some (Outcome.titleUpdated Source.branch), none,
      Request.update ctx.owner ctx.repo ctx.number
        (buildTitle inp.titleFormat inp.ticketPrefix i ctx.title) ::
      (if inp.quiet == "true" then []
       else [Request.review ctx.owner ctx.repo ctx.number branchUpdateComment "COMMENT"])⟩ := by
  simp only [tryRun, extractId, getInputE_ok htr, getInputE_ok htf, getInputE_ok htok,
    getInputE_ok htfmt, getInputE_ok hbr, getInputE_ok hbf, getInputE_ok htk, getInputE_opt,
    hc, hgc, htc, okBind, pureOk, hm, hgb, htb, Option.isSome_none, Option.isSome_some,
    Bool.false_eq_true, if_false, eq_self_iff_true, if_true, exemptCond_false _ _ _ hne]
  cases hq : (inp.quiet == "true") <;> simp [hq]

/-- Reaching the body stage with an absent body is fatal with the
missing-body message; no request is issued. -/
theorem tryRun_body_missing (eng : Engine) (inp : Inputs) (ctx : Context)
    (f g : String → Option String)
    (htr : inp.titleRegex ≠ "") (htf : inp.titleRegexFlags ≠ "")
    (hc : eng.compile inp.titleRegex inp.titleRegexFlags = Except.ok f)
    (hm : f ctx.title = none)
    (htok : inp.token ≠ "")
    (hne : computeSender ctx.userType ctx.login = "" ∨
      computeSender ctx.userType ctx.login ∉
        (splitOnChar ',' inp.exemptUsers.data).map (fun u => jsTrim (String.mk u)))
    (htfmt : inp.titleFormat ≠ "")
    (hbr : inp.branchRegex ≠ "") (hbf : inp.branchRegexFlags ≠ "")
    (hgc : eng.compile inp.branchRegex inp.branchRegexFlags = Except.ok g)
    (hgb : g ctx.branch = none)
    (hbody : ctx.body = none) :
    tryRun eng inp ctx = Except.ok ⟨some Outcome.rejected,
      some "Could not retrieve the Pull Request body", []⟩ := by
  simp only [tryRun, getInputE_ok htr, getInputE_ok htf, getInputE_ok htok,
    getInputE_ok htfmt, getInputE_ok hbr, getInputE_ok hbf, getInputE_opt,
    hc, hgc, okBind, pureOk, hm, hgb, hbody, Option.isSome_none,
    Bool.false_eq_true, if_false, exemptCond_false _ _ _ hne]

/-- A body-pattern match whose extraction (run over the matched substring)
succeeds updates the title and, when quiet mode is off, posts the
body-variant comment after the update. -/
theorem tryRun_body_update (eng : Engine) (inp : Inputs) (ctx : Context)
    (f g h t : String → Option String) (body m i : String)
    (htr : inp.titleRegex ≠ "") (htf : inp.titleRegexFlags ≠ "")
    (hc : eng.compile inp.titleRegex inp.titleRegexFlags = Except.ok f)
    (hm : f ctx.title = none)
    (htok : inp.token ≠ "")
    (hne : computeSender ctx.userType ctx.login = "" ∨
      computeSender ctx.userType ctx.login ∉
        (splitOnChar ',' inp.exemptUsers.data).map (fun u => jsTrim (String.mk u)))
    (htfmt : inp.titleFormat ≠ "")
    (hbr : inp.branchRegex ≠ "") (hbf : inp.branchRegexFlags ≠ "")
    (hgc : eng.compile inp.branchRegex inp.branchRegexFlags = Except.ok g)
    (hgb : g ctx.branch = none)
    (hbody : ctx.body = some body)
    (hbri : inp.bodyRegex ≠ "") (hbfi : inp.bodyRegexFlags ≠ "")
    (hhc : eng.compile inp.bodyRegex inp.bodyRegexFlags = Except.ok h)
    (hhb : h body = some m)
    (htk : inp.ticketRegex ≠ "")
    (htc : eng.compile inp.ticketRegex "" = Except.ok t)
    (htm : t m = some i) :
    tryRun eng inp ctx = Except.ok ⟨some (Outcome.titleUpdated Source.body), none,
      Request.update ctx.owner ctx.repo ctx.number
        (buildTitle inp.titleFormat inp.ticketPrefix i ctx.title) ::
      (if inp.quiet == "true" then []
       else [Request.review ctx.owner ctx.repo ctx.number bodyUpdateComment "COMMENT"])⟩ := by
  simp only [tryRun, extractId, getInputE_ok htr, getInputE_ok htf, getInputE_ok htok,
    getInputE_ok htfmt, getInputE_ok hbr, getInputE_ok hbf, getInputE_ok hbri,
    getInputE_ok hbfi, getInputE_ok htk, getInputE_opt, hc, hgc, hhc, htc, okBind, pureOk,
    hm, hgb, hbody, hhb, htm, Option.isSome_none, Option.isSome_some,
    Bool.false_eq_true, if_false, eq_self_iff_true, if_true, exemptCond_false _ _ _ hne]
  cases hq : (inp.quiet == "true") <;> simp [hq]

/-- A body-pattern match whose extraction over the matched substring fails
is fatal with the body shorthand message; no request is issued. -/
theorem tryRun_body_extract_fail (eng : Engine) (inp : Inputs) (ctx : Context)
    (f g h t : String → Option String) (body m : String)
    (htr : inp.titleRegex ≠ "") (htf : inp.titleRegexFlags ≠ "")
    (hc : eng.compile inp.titleRegex inp.titleRegexFlags = Except.ok f)
    (hm : f ctx.title = none)
    (htok : inp.token ≠ "")
    (hne : computeSender ctx.userType ctx.login = "" ∨
      computeSender ctx.userType ctx.login ∉
        (splitOnChar ',' inp.exemptUsers.data).map (fun u => jsTrim (String.mk u)))
    (htfmt : inp.titleFormat ≠ "")
    (hbr : inp.branchRegex ≠ "") (hbf : inp.branchRegexFlags ≠ "")
    (hgc : eng.compile inp.branchRegex inp.branchRegexFlags = Except.ok g)
    (hgb : g ctx.branch = none)
    (hbody : ctx.body = some body)
    (hbri : inp.bodyRegex ≠ "") (hbfi : inp.bodyRegexFlags ≠ "")
    (hhc : eng.compile inp.bodyRegex inp.bodyRegexFlags = Except.ok h)
    (hhb : h body = some m)
    (htk : inp.ticketRegex ≠ "")
    (htc : eng.compile inp.ticketRegex "" = Except.ok t)
    (htm : t m = none) :
    tryRun eng inp ctx = Except.ok ⟨some Outcome.rejected,
      some "Could not extract a ticket shorthand reference from the body", []⟩ := by
  simp only [tryRun, extractId, getInputE_ok htr, getInputE_ok htf, getInputE_ok htok,
    getInputE_ok htfmt, getInputE_ok hbr, getInputE_ok hbf, getInputE_ok hbri,
    getInputE_ok hbfi, getInputE_ok htk, getInputE_opt, hc, hgc, hhc, htc, okBind, pureOk,
    hm, hgb, hbody, hhb, htm, Option.isSome_none, Option.isSome_some,
    Bool.false_eq_true, if_false, eq_self_iff_true, if_true, exemptCond_false _ _ _ hne]

/-- When none of title, branch and body matched, the run is rejected with
the terminal no-reference message; no request is issued. -/
theorem tryRun_no_reference (eng : Engine) (inp : Inputs) (ctx : Context)
    (f g h : String → Option String) (body : String)
    (htr : inp.titleRegex ≠ "") (htf : inp.titleRegexFlags ≠ "")
    (hc : eng.compile inp.titleRegex inp.titleRegexFlags = Except.ok f)
    (hm : f ctx.title = none)
    (htok : inp.token ≠ "")
    (hne : computeSender ctx.userType ctx.login = "" ∨
      computeSender ctx.userType ctx.login ∉
        (splitOnChar ',' inp.exemptUsers.data).map (fun u => jsTrim (String.mk u)))
    (htfmt : inp.titleFormat ≠ "")
    (hbr : inp.branchRegex ≠ "") (hbf : inp.branchRegexFlags ≠ "")
    (hgc : eng.compile inp.branchRegex inp.branchRegexFlags = Except.ok g)
    (hgb : g ctx.branch = none)
    (hbody : ctx.body = some body)
    (hbri : inp.bodyRegex ≠ "") (hbfi : inp.bodyRegexFlags ≠ "")
    (hhc : eng.compile inp.bodyRegex inp.bodyRegexFlags = Except.ok h)
    (hhb : h body = none) :
    tryRun eng inp ctx = Except.ok ⟨some Outcome.rejected,
      some "No ticket was referenced in this pull request", []⟩ := by
  simp only [tryRun, getInputE_ok htr, getInputE_ok htf, getInputE_ok htok,
    getInputE_ok htfmt, getInputE_ok hbr, getInputE_ok hbf, getInputE_ok hbri,
    getInputE_ok hbfi, getInputE_opt, hc, hgc, hhc, okBind, pureOk,
    hm, hgb, hbody, hhb, Option.isSome_none,
    Bool.false_eq_true, if_false, exemptCond_false _ _ _ hne]
  simp

/-- An absent required `token` input throws before the title-match return,
whatever the title check found. -/
theorem tryRun_token_missing (eng : Engine) (inp : Inputs) (ctx : Context)
    (f : String → Option String)
    (htr : inp.titleRegex ≠ "") (htf : inp.titleRegexFlags ≠ "")
    (hc : eng.compile inp.titleRegex inp.titleRegexFlags = Except.ok f)
    (htok : inp.token = "") :
    tryRun eng inp ctx = Except.error "Input required and not supplied: token" := by
  simp only [tryRun, getInputE_ok htr, getInputE_ok htf, hc, okBind, htok,
    getInputE_missing, errBind]
  rfl

/-- An absent required `branchRegex` input throws at the branch stage. -/
theorem tryRun_branch_input_missing (eng : Engine) (inp : Inputs) (ctx : Context)
    (f : String → Option String)
    (htr : inp.titleRegex ≠ "") (htf : inp.titleRegexFlags ≠ "")
    (hc : eng.compile inp.titleRegex inp.titleRegexFlags = Except.ok f)
    (hm : f ctx.title = none)
    (htok : inp.token ≠ "")
    (hne : computeSender ctx.userType ctx.login = "" ∨
      computeSender ctx.userType ctx.login ∉
        (splitOnChar ',' inp.exemptUsers.data).map (fun u => jsTrim (String.mk u)))
    (htfmt : inp.titleFormat ≠ "")
    (hbr : inp.branchRegex = "") :
    tryRun eng inp ctx = Except.error "Input required and not supplied: branchRegex" := by
  simp only [tryRun, getInputE_ok htr, getInputE_ok htf, getInputE_ok htok,
    getInputE_ok htfmt, getInputE_opt, hc, okBind, pureOk, hm, hbr,
    Option.isSome_none, Bool.false_eq_true, if_false, exemptCond_false _ _ _ hne,
    getInputE_missing, errBind]
  rfl

/-- A branch pattern that fails to compile throws at the branch stage. -/
theorem tryRun_branch_compile_fail (eng : Engine) (inp : Inputs) (ctx : Context)
    (f : String → Option String) (e : String)
    (htr : inp.titleRegex ≠ "") (htf : inp.titleRegexFlags ≠ "")
    (hc : eng.compile inp.titleRegex inp.titleRegexFlags = Except.ok f)
    (hm : f ctx.title = none)
    (htok : inp.token ≠ "")
    (hne : computeSender ctx.userType ctx.login = "" ∨
      computeSender ctx.userType ctx.login ∉
        (splitOnChar ',' inp.exemptUsers.data).map (fun u => jsTrim (String.mk u)))
    (htfmt : inp.titleFormat ≠ "")
    (hbr : inp.branchRegex ≠ "") (hbf : inp.branchRegexFlags ≠ "")
    (hgc : eng.compile inp.branchRegex inp.branchRegexFlags = Except.error e) :
    tryRun eng inp ctx = Except.error e := by
  simp only [tryRun, getInputE_ok htr, getInputE_ok htf, getInputE_ok htok,
    getInputE_ok htfmt, getInputE_ok hbr, getInputE_ok hbf, getInputE_opt, hc, hgc,
    okBind, pureOk, hm, Option.isSome_none, Bool.false_eq_true, if_false,
    exemptCond_false _ _ _ hne, errBind]

/-- The top-level catch: a thrown exception becomes a single failure mark
carrying the exception's message, with no request issued. -/
theorem run_catch (eng : Engine) (inp : Inputs) (ctx : Context) (msg : String)
    (h : tryRun eng inp ctx = Except.error msg) :
    run eng inp ctx = ⟨some Outcome.rejected, some msg, []⟩ := by
  simp [run, h]

/-- The successful case of the top-level try: the result passes through. -/
theorem run_ok (eng : Engine) (inp : Inputs) (ctx : Context) (r : RunResult)
    (h : tryRun eng inp ctx = Except.ok r) :
    run eng inp ctx = r := by
  simp [run, h]

/-! ## Concrete fixtures used by witnesses and counterexamples -/

/-- A concrete regex-engine instance: a pattern matches any string that
contains it literally (the reported match text is the pattern itself), and
the pattern `(` fails to compile. -/
def simpleEngine : Engine :=
  ⟨fun base _flags =>
    if base == "(" then
      Except.error "Invalid regular expression: missing closing parenthesis"
    else Except.ok (fun s =>
      match firstIndexOf s.data base.data with
      | some _ => some base
      | none => none)⟩

/-- A configuration with every input supplied. -/
def okInputs : Inputs where
  ticketRegex := "TICK-42"
  ticketPrefix := "TICK"
  titleFormat := "[%prefix%-%id%] %title%"
  titleRegex := "TICK-"
  titleRegexFlags := "i"
  branchRegex := "feature/"
  branchRegexFlags := "i"
  bodyRegex := "TICK-42"
  bodyRegexFlags := "i"
  exemptUsers := "alice, bob"
  quiet := ""
  token := "secret"

/-- A pull-request context whose title lacks a ticket reference but whose
branch name and body both carry `TICK-42`. -/
def prCtx : Context where
  title := "Add login flow"
  branch := "feature/TICK-42-login"
  login := "carol"
  userType := "User"
  body := some "closes TICK-42"
  owner := "acme"
  repo := "widgets"
  number := 7

/-- The same context with a title that already matches the title pattern. -/
def titledCtx : Context := { prCtx with title := "[TICK-42] Add login flow" }

/-- The full configuration with the required `token` input absent. -/
def noTokenInputs : Inputs := { okInputs with token := "" }

/-- The full configuration with the required `bodyRegex` input absent. -/
def noBodyRegexInputs : Inputs := { okInputs with bodyRegex := "" }

/-- The full configuration with branch and body patterns that match
nothing in `prCtx`. -/
def noMatchInputs : Inputs := { okInputs with branchRegex := "release/", bodyRegex := "JIRA" }

/-! ## Claims -/

/-- C1 (amended): for every configuration whose title pattern inputs are
supplied and compile and whose token input is supplied, and every
pull-request context whose title matches the compiled title pattern, `run`
returns Approved with no failure and no update or comment request,
regardless of the branch name, body, or exemption content. -/
theorem claim_C1 (eng : Engine) (inp : Inputs) (ctx : Context)
    (f : String → Option String) (m : String)
    (htr : inp.titleRegex ≠ "") (htf : inp.titleRegexFlags ≠ "")
    (hc : eng.compile inp.titleRegex inp.titleRegexFlags = Except.ok f)
    (hm : f ctx.title = some m)
    (htok : inp.token ≠ "") :
    run eng inp ctx = ⟨some Outcome.approved, none, []⟩ :=
  run_ok _ _ _ _ (tryRun_title_match eng inp ctx f m htr htf hc hm htok)

/-- C1 witness: a concrete matching title with the token supplied returns
Approved with no requests. -/
theorem claim_C1_witness :
    run simpleEngine okInputs titledCtx = ⟨some Outcome.approved, none, []⟩ :=
  claim_C1 simpleEngine okInputs titledCtx _ "TICK-" (by decide) (by decide) rfl rfl (by decide)

/-- C1 counterexample: the claim quantifies over every configuration, but
with the token input absent the compiled title pattern matches the title
and yet `run` fails instead of returning Approved. -/
theorem claim_C1_cex :
    (∃ f, simpleEngine.compile noTokenInputs.titleRegex noTokenInputs.titleRegexFlags =
        Except.ok f ∧ (f titledCtx.title).isSome = true) ∧
    run simpleEngine noTokenInputs titledCtx ≠ ⟨some Outcome.approved, none, []⟩ ∧
    (run simpleEngine noTokenInputs titledCtx).failed =
      some "Input required and not supplied: token" :=
  ⟨⟨_, rfl, rfl⟩, by decide, by decide⟩

/-- C2: when the title does not match, a non-empty computed sender that is
a member of the comma-split, entry-trimmed exempt-user list makes `run`
return Exempted with zero update and zero comment requests, whatever the
branch name and body hold. -/
theorem claim_C2 (eng : Engine) (inp : Inputs) (ctx : Context)
    (f : String → Option String)
    (htr : inp.titleRegex ≠ "") (htf : inp.titleRegexFlags ≠ "")
    (hc : eng.compile inp.titleRegex inp.titleRegexFlags = Except.ok f)
    (hm : f ctx.title = none)
    (htok : inp.token ≠ "")
    (hs : computeSender ctx.userType ctx.login ≠ "")
    (hmem : computeSender ctx.userType ctx.login ∈
      (splitOnChar ',' inp.exemptUsers.data).map (fun u => jsTrim (String.mk u))) :
    run eng inp ctx = ⟨some Outcome.exempted, none, []⟩ :=
  run_ok _ _ _ _ (tryRun_exempted eng inp ctx f htr htf hc hm htok hs hmem)

/-- C2 witness: sender `carol` is listed in `alice, carol`; the branch and
body both carry a valid ticket reference, yet the run is Exempted with no
requests. -/
theorem claim_C2_witness :
    run simpleEngine { okInputs with exemptUsers := "alice, carol" } prCtx =
      ⟨some Outcome.exempted, none, []⟩ :=
  claim_C2 simpleEngine { okInputs with exemptUsers := "alice, carol" } prCtx _
    (by decide) (by decide) rfl rfl (by decide) (by decide) (by decide)

/-- C10: even on the title-match path the token is read as a required
input before returning: a configuration with no token value makes the run
fail through the top-level catch with the required-input message instead
of returning Approved, and no request is issued. -/
theorem claim_C10 (eng : Engine) (inp : Inputs) (ctx : Context)
    (f : String → Option String) (m : String)
    (htr : inp.titleRegex ≠ "") (htf : inp.titleRegexFlags ≠ "")
    (hc : eng.compile inp.titleRegex inp.titleRegexFlags = Except.ok f)
    (hm : f ctx.title = some m)
    (htok : inp.token = "") :
    run eng inp ctx =
      ⟨some Outcome.rejected, some "Input required and not supplied: token", []⟩ ∧
    run eng inp ctx ≠ ⟨some Outcome.approved, none, []⟩ := by
  have base := run_catch _ _ _ _ (tryRun_token_missing eng inp ctx f htr htf hc htok)
  refine ⟨base, ?_⟩
  rw [base]
  simp

/-- C10 witness: the concrete matching-title context with the token absent
fails with the required-input message and is not Approved. -/
theorem claim_C10_witness :
    run simpleEngine noTokenInputs titledCtx =
      ⟨some Outcome.rejected, some "Input required and not supplied: token", []⟩ ∧
    run simpleEngine noTokenInputs titledCtx ≠ ⟨some Outcome.approved, none, []⟩ :=
  claim_C10 simpleEngine noTokenInputs titledCtx _ "TICK-" (by decide) (by decide) rfl rfl rfl

/-- The sender computation as the claim words it: for a Bot author the
trailing suffix token `[bot]` is removed (a login not ending in the token
is unchanged); for any other author kind the login is unchanged. -/
def claimSenderTrailing (senderType login : String) : String :=
  if senderType == "Bot" then
    if ("[bot]".data).isSuffixOf login.data then
      String.mk (login.data.take (login.data.length - "[bot]".data.length))
    else login
  else login

/-- C3 counterexample: the code removes the first occurrence of `[bot]`
wherever it is, not a trailing suffix: for the Bot login `a[bot]b[bot]`
the code computes `ab[bot]`, while removing the trailing suffix token
gives `a[bot]b`. -/
theorem claim_C3_cex :
    computeSender "Bot" "a[bot]b[bot]" = "ab[bot]" ∧
    claimSenderTrailing "Bot" "a[bot]b[bot]" = "a[bot]b" ∧
    computeSender "Bot" "a[bot]b[bot]" ≠ claimSenderTrailing "Bot" "a[bot]b[bot]" :=
  ⟨by decide, by decide, by decide⟩

/-- Substituting into an empty replacement text yields the empty text, so
replacing by the empty string is pure deletion. -/
theorem getSubstitution_of_empty (a b c : List Char) : getSubstitution a b c [] = [] := rfl

/-- C3 (amended): for a Bot author the sender is the login with the first
occurrence of the literal text `[bot]` removed — a purely textual
transform, not restricted to a trailing occurrence; for any other author
kind the login is unchanged; in particular login `foo[bot]` with kind Bot
yields sender `foo`. -/
theorem claim_C3 :
    (∀ login : String, computeSender "Bot" login =
      match firstIndexOf login.data "[bot]".data with
      | none => login
      | some i => String.mk (login.data.take i ++ login.data.drop (i + "[bot]".data.length))) ∧
    (∀ ty login : String, ty ≠ "Bot" → computeSender ty login = login) ∧
    computeSender "Bot" "foo[bot]" = "foo" := by
  refine ⟨?_, ?_, by decide⟩
  · intro login
    show jsReplace login "[bot]" "" = _
    unfold jsReplace
    cases h : firstIndexOf login.data "[bot]".data <;>
      simp [getSubstitution_of_empty]
  · intro ty login hne
    simp [computeSender, hne]

/-- C3 witness: a non-Bot author's login is unchanged even when it carries
the `[bot]` marker. -/
theorem claim_C3_witness : computeSender "User" "foo[bot]" = "foo[bot]" :=
  claim_C3.2.1 "User" "foo[bot]" (by decide)

/-- The substitution with `%id%` replaced before `%prefix%`: one of the
alternative orders the claim asserts to give the same result. -/
def buildTitleIdFirst (titleFormat ticketPrefix id title : String) : String :=
  jsReplace (jsReplace (jsReplace titleFormat "%id%" id) "%prefix%" ticketPrefix) "%title%" title

/-- C6 counterexample: the order of the three replacements does affect the
result when a substitution value itself contains a placeholder token: with
template `%prefix% %id%`, prefix `%id%` and id `X`, the code's order gives
`X %id%` while replacing `%id%` before `%prefix%` gives `%id% X`. -/
theorem claim_C6_cex :
    buildTitle "%prefix% %id%" "%id%" "X" "" = "X %id%" ∧
    buildTitleIdFirst "%prefix% %id%" "%id%" "X" "" = "%id% X" ∧
    buildTitle "%prefix% %id%" "%id%" "X" "" ≠ buildTitleIdFirst "%prefix% %id%" "%id%" "X" "" :=
  ⟨by decide, by decide, by decide⟩

/-- C6 (amended): template substitution replaces each of the three
placeholder tokens literally, at most once, at its first occurrence, in
the fixed order `%prefix%`, `%id%`, `%title%` (order independence fails in
general when a substitution value contains a token); the example template
gives exactly `JIRA-1234: Fix bug`, a title value containing `%id%` is not
substituted again, and a token occurring twice is replaced only once. -/
theorem claim_C6 :
    buildTitle "%prefix%-%id%: %title%" "JIRA" "1234" "Fix bug" = "JIRA-1234: Fix bug" ∧
    buildTitle "%prefix%-%id%: %title%" "JIRA" "1234" "Fix %id% bug" = "JIRA-1234: Fix %id% bug" ∧
    buildTitle "%id% and %id%" "P" "X" "T" = "X and %id%" :=
  ⟨by decide, by decide, by decide⟩

/-- C4: when the branch pattern matches the branch name but the ticket
pattern extracts nothing from the whole branch name, the run is Rejected
with the branch-stage message and no request, and the body stage is never
evaluated: the result is the same for every body value, with no condition
on the body pattern. -/
theorem claim_C4 (eng : Engine) (inp : Inputs) (ctx : Context)
    (f g t : String → Option String) (m : String)
    (htr : inp.titleRegex ≠ "") (htf : inp.titleRegexFlags ≠ "")
    (hc : eng.compile inp.titleRegex inp.titleRegexFlags = Except.ok f)
    (hm : f ctx.title = none)
    (htok : inp.token ≠ "")
    (hne : computeSender ctx.userType ctx.login = "" ∨
      computeSender ctx.userType ctx.login ∉
        (splitOnChar ',' inp.exemptUsers.data).map (fun u => jsTrim (String.mk u)))
    (htfmt : inp.titleFormat ≠ "")
    (hbr : inp.branchRegex ≠ "") (hbf : inp.branchRegexFlags ≠ "")
    (hgc : eng.compile inp.branchRegex inp.branchRegexFlags = Except.ok g)
    (hgb : g ctx.branch = some m)
    (htk : inp.ticketRegex ≠ "")
    (htc : eng.compile inp.ticketRegex "" = Except.ok t)
    (htb : t ctx.branch = none) :
    ∀ b : Option String, run eng inp { ctx with body := b } =
      ⟨some Outcome.rejected,
        some "Could not extract a ticket ID reference from the branch", []⟩ := by
  intro b
  exact run_ok _ _ _ _ (tryRun_branch_extract_fail eng inp { ctx with body := b } f g t m
    htr htf hc hm htok hne htfmt hbr hbf hgc hgb htk htc htb)

/-- C4 witness: with ticket pattern `QQQ`, the branch matches `feature/`
but extraction fails; even a body that would match both patterns leaves
the branch-stage rejection unchanged. -/
theorem claim_C4_witness :
    run simpleEngine { okInputs with ticketRegex := "QQQ" }
      { prCtx with body := some "QQQ plus TICK-42" } =
      ⟨some Outcome.rejected,
        some "Could not extract a ticket ID reference from the branch", []⟩ :=
  claim_C4 simpleEngine { okInputs with ticketRegex := "QQQ" } prCtx _ _ _ "feature/"
    (by decide) (by decide) rfl rfl (by decide) (Or.inr (by decide)) (by decide)
    (by decide) (by decide) rfl rfl (by decide) rfl rfl (some "QQQ plus TICK-42")

/-- C5: once the body stage is reached (branch did not match), an absent
body is Rejected with the missing-body message and no request; with a
present body, a body-pattern match has its identifier extracted from the
matched substring (the hypotheses constrain the ticket pattern only on the
matched substring, not on the whole body), and a successful extraction
rewrites the title and returns TitleUpdated(body). -/
theorem claim_C5 (eng : Engine) (inp : Inputs) (ctx : Context)
    (f g : String → Option String)
    (htr : inp.titleRegex ≠ "") (htf : inp.titleRegexFlags ≠ "")
    (hc : eng.compile inp.titleRegex inp.titleRegexFlags = Except.ok f)
    (hm : f ctx.title = none)
    (htok : inp.token ≠ "")
    (hne : computeSender ctx.userType ctx.login = "" ∨
      computeSender ctx.userType ctx.login ∉
        (splitOnChar ',' inp.exemptUsers.data).map (fun u => jsTrim (String.mk u)))
    (htfmt : inp.titleFormat ≠ "")
    (hbr : inp.branchRegex ≠ "") (hbf : inp.branchRegexFlags ≠ "")
    (hgc : eng.compile inp.branchRegex inp.branchRegexFlags = Except.ok g)
    (hgb : g ctx.branch = none) :
    (ctx.body = none →
      run eng inp ctx =
        ⟨some Outcome.rejected, some "Could not retrieve the Pull Request body", []⟩) ∧
    (∀ (h t : String → Option String) (body m i : String),
      ctx.body = some body →
      inp.bodyRegex ≠ "" → inp.bodyRegexFlags ≠ "" →
      eng.compile inp.bodyRegex inp.bodyRegexFlags = Except.ok h →
      h body = some m →
      inp.ticketRegex ≠ "" →
      eng.compile inp.ticketRegex "" = Except.ok t →
      t m = some i →
      run eng inp ctx = ⟨some (Outcome.titleUpdated Source.body), none,
        Request.update ctx.owner ctx.repo ctx.number
          (buildTitle inp.titleFormat inp.ticketPrefix i ctx.title) ::
        (if inp.quiet == "true" then []
         else [Request.review ctx.owner ctx.repo ctx.number bodyUpdateComment "COMMENT"])⟩) := by
  constructor
  · intro hbody
    exact run_ok _ _ _ _ (tryRun_body_missing eng inp ctx f g
      htr htf hc hm htok hne htfmt hbr hbf hgc hgb hbody)
  · intro h t body m i hbody hbri hbfi hhc hhb htk htc htm
    exact run_ok _ _ _ _ (tryRun_body_update eng inp ctx f g h t body m i
      htr htf hc hm htok hne htfmt hbr hbf hgc hgb hbody hbri hbfi hhc hhb htk htc htm)

/-- C5 witness: with branch pattern `release/` (no match), a missing body
is rejected with the missing-body message, and the body `closes TICK-42`
matching `TICK-42` has `TICK-42` extracted from the matched substring and
the title rewritten. -/
theorem claim_C5_witness :
    run simpleEngine { okInputs with branchRegex := "release/" } { prCtx with body := none } =
      ⟨some Outcome.rejected, some "Could not retrieve the Pull Request body", []⟩ ∧
    run simpleEngine { okInputs with branchRegex := "release/" } prCtx =
      ⟨some (Outcome.titleUpdated Source.body), none,
        [Request.update "acme" "widgets" 7 "[TICK-TICK-42] Add login flow",
         Request.review "acme" "widgets" 7 bodyUpdateComment "COMMENT"]⟩ :=
  ⟨(claim_C5 simpleEngine { okInputs with branchRegex := "release/" }
      { prCtx with body := none } _ _ (by decide) (by decide) rfl rfl (by decide)
      (Or.inr (by decide)) (by decide) (by decide) (by decide) rfl rfl).1 rfl,
   (claim_C5 simpleEngine { okInputs with branchRegex := "release/" } prCtx _ _
      (by decide) (by decide) rfl rfl (by decide)
      (Or.inr (by decide)) (by decide) (by decide) (by decide) rfl rfl).2
     _ _ "closes TICK-42" "TICK-42" "TICK-42" rfl (by decide) (by decide) rfl rfl
     (by decide) rfl rfl⟩

/-- C7: on a branch match with successful extraction, quiet mode `"true"`
issues exactly one update request and zero comment requests, while any
other quiet value issues exactly one update request followed by one
comment request with the branch-variant message, in that order. -/
theorem claim_C7 (eng : Engine) (inp : Inputs) (ctx : Context)
    (f g t : String → Option String) (m i : String)
    (htr : inp.titleRegex ≠ "") (htf : inp.titleRegexFlags ≠ "")
    (hc : eng.compile inp.titleRegex inp.titleRegexFlags = Except.ok f)
    (hm : f ctx.title = none)
    (htok : inp.token ≠ "")
    (hne : computeSender ctx.userType ctx.login = "" ∨
      computeSender ctx.userType ctx.login ∉
        (splitOnChar ',' inp.exemptUsers.data).map (fun u => jsTrim (String.mk u)))
    (htfmt : inp.titleFormat ≠ "")
    (hbr : inp.branchRegex ≠ "") (hbf : inp.branchRegexFlags ≠ "")
    (hgc : eng.compile inp.branchRegex inp.branchRegexFlags = Except.ok g)
    (hgb : g ctx.branch = some m)
    (htk : inp.ticketRegex ≠ "")
    (htc : eng.compile inp.ticketRegex "" = Except.ok t)
    (htb : t ctx.branch = some i) :
    (inp.quiet = "true" →
      run eng inp ctx = ⟨some (Outcome.titleUpdated Source.branch), none,
        [Request.update ctx.owner ctx.repo ctx.number
          (buildTitle inp.titleFormat inp.ticketPrefix i ctx.title)]⟩) ∧
    (inp.quiet ≠ "true" →
      run eng inp ctx = ⟨some (Outcome.titleUpdated Source.branch), none,
        [Request.update ctx.owner ctx.repo ctx.number
          (buildTitle inp.titleFormat inp.ticketPrefix i ctx.title),
         Request.review ctx.owner ctx.repo ctx.number branchUpdateComment "COMMENT"]⟩) := by
  have base := run_ok _ _ _ _ (tryRun_branch_update eng inp ctx f g t m i
    htr htf hc hm htok hne htfmt hbr hbf hgc hgb htk htc htb)
  constructor
  · intro hq
    rw [base]
    simp [hq]
  · intro hq
    rw [base]
    simp [hq]

/-- C7 witness: quiet `"true"` issues only the update; the default (quiet
absent) issues the update and then the branch-variant comment. -/
theorem claim_C7_witness :
    run simpleEngine { okInputs with quiet := "true" } prCtx =
      ⟨some (Outcome.titleUpdated Source.branch), none,
        [Request.update "acme" "widgets" 7 "[TICK-TICK-42] Add login flow"]⟩ ∧
    run simpleEngine okInputs prCtx =
      ⟨some (Outcome.titleUpdated Source.branch), none,
        [Request.update "acme" "widgets" 7 "[TICK-TICK-42] Add login flow",
         Request.review "acme" "widgets" 7 branchUpdateComment "COMMENT"]⟩ :=
  ⟨(claim_C7 simpleEngine { okInputs with quiet := "true" } prCtx _ _ _ "feature/" "TICK-42"
      (by decide) (by decide) rfl rfl (by decide) (Or.inr (by decide)) (by decide)
      (by decide) (by decide) rfl rfl (by decide) rfl rfl).1 rfl,
   (claim_C7 simpleEngine okInputs prCtx _ _ _ "feature/" "TICK-42"
      (by decide) (by decide) rfl rfl (by decide) (Or.inr (by decide)) (by decide)
      (by decide) (by decide) rfl rfl (by decide) rfl rfl).2 (by decide)⟩

/-- C8 counterexample: patterns are not all compiled at configuration-load
time and a missing required option does not abort the run before the
stages: with the required `bodyRegex` input absent, a matching title still
runs the title stage and returns Approved with no failure at all. -/
theorem claim_C8_cex :
    noBodyRegexInputs.bodyRegex = "" ∧
    run simpleEngine noBodyRegexInputs titledCtx = ⟨some Outcome.approved, none, []⟩ :=
  ⟨rfl, by decide⟩

/-- C8 (amended): required options are read and patterns compiled only
immediately before the stage that needs them; when the branch stage is
reached, a missing `branchRegex` input or a branch pattern that fails to
compile aborts the run through the top-level catch with the thrown
message, with no mutation requested and no later stage evaluated — but
the stages before the failing read have already run. -/
theorem claim_C8 (eng : Engine) (inp : Inputs) (ctx : Context)
    (f : String → Option String)
    (htr : inp.titleRegex ≠ "") (htf : inp.titleRegexFlags ≠ "")
    (hc : eng.compile inp.titleRegex inp.titleRegexFlags = Except.ok f)
    (hm : f ctx.title = none)
    (htok : inp.token ≠ "")
    (hne : computeSender ctx.userType ctx.login = "" ∨
      computeSender ctx.userType ctx.login ∉
        (splitOnChar ',' inp.exemptUsers.data).map (fun u => jsTrim (String.mk u)))
    (htfmt : inp.titleFormat ≠ "") :
    (inp.branchRegex = "" →
      run eng inp ctx =
        ⟨some Outcome.rejected, some "Input required and not supplied: branchRegex", []⟩) ∧
    (∀ e : String, inp.branchRegex ≠ "" → inp.branchRegexFlags ≠ "" →
      eng.compile inp.branchRegex inp.branchRegexFlags = Except.error e →
      run eng inp ctx = ⟨some Outcome.rejected, some e, []⟩) := by
  constructor
  · intro hbr
    exact run_catch _ _ _ _ (tryRun_branch_input_missing eng inp ctx f
      htr htf hc hm htok hne htfmt hbr)
  · intro e hbr hbf hgc
    exact run_catch _ _ _ _ (tryRun_branch_compile_fail eng inp ctx f e
      htr htf hc hm htok hne htfmt hbr hbf hgc)

/-- C8 witness: with the branch stage reached, a missing `branchRegex`
fails with the required-input message, and the invalid pattern `(` fails
with the engine's compile error; neither issues a request. -/
theorem claim_C8_witness :
    run simpleEngine { okInputs with branchRegex := "" } prCtx =
      ⟨some Outcome.rejected, some "Input required and not supplied: branchRegex", []⟩ ∧
    run simpleEngine { okInputs with branchRegex := "(" } prCtx =
      ⟨some Outcome.rejected,
        some "Invalid regular expression: missing closing parenthesis", []⟩ :=
  ⟨(claim_C8 simpleEngine { okInputs with branchRegex := "" } prCtx _
      (by decide) (by decide) rfl rfl (by decide) (Or.inr (by decide)) (by decide)).1 rfl,
   (claim_C8 simpleEngine { okInputs with branchRegex := "(" } prCtx _
      (by decide) (by decide) rfl rfl (by decide) (Or.inr (by decide)) (by decide)).2
     "Invalid regular expression: missing closing parenthesis"
     (by decide) (by decide) rfl⟩

/-- C9 counterexample: the terminal message when no stage matched is
`No ticket was referenced in this pull request` with a capital N, not the
claimed all-lowercase text. -/
theorem claim_C9_cex :
    (run simpleEngine noMatchInputs prCtx).failed =
      some "No ticket was referenced in this pull request" ∧
    (run simpleEngine noMatchInputs prCtx).failed ≠
      some "no ticket was referenced in this pull request" :=
  ⟨by decide, by decide⟩

/-- C9 (amended): when none of title, branch and body matched, the run is
marked failed with the terminal message `No ticket was referenced in this
pull request` and no request; and any exception thrown by an earlier step
is caught exactly once at the top level and converted into the same
failure-marking call carrying the exception's message. -/
theorem claim_C9 (eng : Engine) (inp : Inputs) (ctx : Context)
    (f g h : String → Option String) (body : String)
    (htr : inp.titleRegex ≠ "") (htf : inp.titleRegexFlags ≠ "")
    (hc : eng.compile inp.titleRegex inp.titleRegexFlags = Except.ok f)
    (hm : f ctx.title = none)
    (htok : inp.token ≠ "")
    (hne : computeSender ctx.userType ctx.login = "" ∨
      computeSender ctx.userType ctx.login ∉
        (splitOnChar ',' inp.exemptUsers.data).map (fun u => jsTrim (String.mk u)))
    (htfmt : inp.titleFormat ≠ "")
    (hbr : inp.branchRegex ≠ "") (hbf : inp.branchRegexFlags ≠ "")
    (hgc : eng.compile inp.branchRegex inp.branchRegexFlags = Except.ok g)
    (hgb : g ctx.branch = none)
    (hbody : ctx.body = some body)
    (hbri : inp.bodyRegex ≠ "") (hbfi : inp.bodyRegexFlags ≠ "")
    (hhc : eng.compile inp.bodyRegex inp.bodyRegexFlags = Except.ok h)
    (hhb : h body = none) :
    run eng inp ctx =
      ⟨some Outcome.rejected, some "No ticket was referenced in this pull request", []⟩ ∧
    (∀ (eng2 : Engine) (inp2 : Inputs) (ctx2 : Context) (msg : String),
      tryRun eng2 inp2 ctx2 = Except.error msg →
      run eng2 inp2 ctx2 = ⟨some Outcome.rejected, some msg, []⟩) := by
  constructor
  · exact run_ok _ _ _ _ (tryRun_no_reference eng inp ctx f g h body
      htr htf hc hm htok hne htfmt hbr hbf hgc hgb hbody hbri hbfi hhc hhb)
  · intro eng2 inp2 ctx2 msg herr
    exact run_catch eng2 inp2 ctx2 msg herr

/-- C9 witness: the concrete no-match configuration ends with the terminal
message, and a concrete thrown required-input error is converted by the
catch into the failure mark with the same message. -/
theorem claim_C9_witness :
    run simpleEngine noMatchInputs prCtx =
      ⟨some Outcome.rejected, some "No ticket was referenced in this pull request", []⟩ ∧
    run simpleEngine noTokenInputs prCtx =
      ⟨some Outcome.rejected, some "Input required and not supplied: token", []⟩ :=
  ⟨(claim_C9 simpleEngine noMatchInputs prCtx _ _ _ "closes TICK-42"
      (by decide) (by decide) rfl rfl (by decide) (Or.inr (by decide)) (by decide)
      (by decide) (by decide) rfl rfl rfl (by decide) (by decide) rfl rfl).1,
   (claim_C9 simpleEngine noMatchInputs prCtx _ _ _ "closes TICK-42"
      (by decide) (by decide) rfl rfl (by decide) (Or.inr (by decide)) (by decide)
      (by decide) (by decide) rfl rfl rfl (by decide) (by decide) rfl rfl).2
     simpleEngine noTokenInputs prCtx "Input required and not supplied: token" rfl⟩
